import Mathlib

/-!
Shallow embedding of the `lirr_filtered` Home Assistant integration:
the departure resolver and direction classifier of
`custom_components/lirr_filtered/coordinator.py`, the GTFS static
schedule parser of `static_schedule.py`, and the shared static-schedule
cache `get_shared_static_schedule`.

Strings are modelled with Lean `String`; the Python string operations
used by the source (`split('|')`, `strip()`, `lower()`, substring
containment via `in`) are re-implemented structurally over `List Char`
so that every definition evaluates by kernel reduction.
Wall-clock instants and epoch timestamps are integers (seconds).
-/

namespace LIRR

/-! ## Python string primitives -/

/-- Python `s.split('|')`: split on the pipe character, keeping empty
pieces (`"".split('|') == [""]`, `"|".split('|') == ["", ""]`). -/
def splitPipeChars : List Char → List (List Char)
  | [] => [[]]
  | c :: rest =>
    if c = '|' then [] :: splitPipeChars rest
    else
      match splitPipeChars rest with
      | [] => [[c]]
      | g :: gs => (c :: g) :: gs

/-- Python `s.split('|')` lifted to `String`. -/
def pySplitPipe (s : String) : List String :=
  (splitPipeChars s.data).map (fun cs => ⟨cs⟩)

/-- Python `s.strip()`: drop leading and trailing whitespace. -/
def pyTrim (s : String) : String :=
  ⟨(((s.data.dropWhile Char.isWhitespace).reverse.dropWhile Char.isWhitespace)).reverse⟩

/-- Python `s.lower()` (ASCII letters, which is all the source compares). -/
def pyLower (s : String) : String :=
  ⟨s.data.map Char.toLower⟩

/-- Does `hay` start with `needle`? -/
def charsStartWith : List Char → List Char → Bool
  | _, [] => true
  | [], _ :: _ => false
  | c :: cs, d :: ds => c = d && charsStartWith cs ds

/-- Python `needle in hay`: substring containment over character lists. -/
def charsContain (needle : List Char) : List Char → Bool
  | [] => needle.isEmpty
  | c :: t => charsStartWith (c :: t) needle || charsContain needle t

/-- Python `needle in hay` on `String`. -/
def strContains (hay needle : String) : Bool :=
  charsContain needle.data hay.data

/-- The list comprehension `[f.strip() for f in s.split('|') if f.strip()]`
used for both the route filter and each direction filter. -/
def parseFilters (s : String) : List String :=
  ((pySplitPipe s).map pyTrim).filter (fun f => !f.isEmpty)

/-! ## Data model: feed records and the static schedule -/

/-- One GTFS-RT stop-time update: stop id plus optional arrival and
departure epoch times (`None` models an absent field). -/
structure StopTimeUpdate where
  stop_id : String
  arrival : Option Int
  departure : Option Int
deriving Repr, DecidableEq

/-- One GTFS-RT trip update: the trip descriptor fields read by the
coordinator plus its stop-time updates.  `trip_headsign = none` models
`hasattr(trip, 'trip_headsign')` being false. -/
structure TripUpdate where
  trip_id : String
  route_id : String
  trip_headsign : Option String
  stop_time_update : List StopTimeUpdate
deriving Repr, DecidableEq

/-- The three lookup tables of `StaticSchedule`, as insertion-ordered
association lists (the Python dicts). -/
structure StaticSchedule where
  trip_headsigns : List (String × String)
  route_names : List (String × String)
  stop_names : List (String × String)
deriving Repr, DecidableEq

/-- A `StaticSchedule()` fresh from `__init__`: three empty dicts. -/
def emptyStaticSchedule : StaticSchedule :=
  { trip_headsigns := [], route_names := [], stop_names := [] }

/-- Python `d.get(k, "")` on an insertion-ordered dict. -/
def lookupTable (m : List (String × String)) (k : String) : String :=
  match m.find? (fun p => p.1 = k) with
  | some p => p.2
  | none => ""

/-- `StaticSchedule.get_trip_headsign`. -/
def StaticSchedule.get_trip_headsign (s : StaticSchedule) (trip_id : String) : String :=
  lookupTable s.trip_headsigns trip_id

/-- `StaticSchedule.get_route_name`. -/
def StaticSchedule.get_route_name (s : StaticSchedule) (route_id : String) : String :=
  lookupTable s.route_names route_id

/-- `StaticSchedule.get_stop_name`. -/
def StaticSchedule.get_stop_name (s : StaticSchedule) (stop_id : String) : String :=
  lookupTable s.stop_names stop_id

/-! ## Departure resolver (`_async_update_data`, collection phase) -/

/-- One entry of `all_departures`.  `dep_time` is the selected epoch
time; the formatted clock string of the source is a pure rendering of
it and is not modelled. -/
structure Departure where
  headsign : String
  dep_time : Int
  minutes_until : Int
  route_id : String
  trip_id : String
deriving Repr, DecidableEq

/-- Headsign resolution of coordinator lines 126-138: trip table, then
inline feed headsign, then route table, then `"Route " + route_id`.
`static_schedule` is `none` when the shared schedule is unavailable. -/
def resolveHeadsign (static_schedule : Option StaticSchedule) (tu : TripUpdate) : String :=
  let h1 : String :=
    match static_schedule with
    | some s => s.get_trip_headsign tu.trip_id
    | none => ""
  let h2 : String :=
    if h1 = "" then
      match tu.trip_headsign with
      | some h => if h = "" then h1 else h
      | none => h1
    else h1
  if h2 = "" then
    match static_schedule with
    | some s =>
      let route_name := s.get_route_name tu.route_id
      if route_name = "" then "Route " ++ tu.route_id else route_name
    | none => "Route " ++ tu.route_id
  else h2

/-- Route-filter test of coordinator lines 141-149: an empty filter
string is falsy and skips filtering; otherwise the route id must
contain one of the parsed substrings (case-sensitive). -/
def passesRouteFilter (route_filter route_id : String) : Bool :=
  if route_filter = "" then true
  else (parseFilters route_filter).any (fun f => strContains route_id f)

/-- Time selection of coordinator lines 151-157: departure if present,
else arrival, else the record is unusable. -/
def selectedTime (stu : StopTimeUpdate) : Option Int :=
  match stu.departure with
  | some t => some t
  | none => stu.arrival

/-- Processing of a single stop-time update (coordinator lines
120-171): stop-id match, headsign resolution, route filter,
time selection, past-departure skip, and emission of the departure
record.  `minutes_until` is `int(total_seconds / 60)`, truncation
toward zero. -/
def processStopTime (static_schedule : Option StaticSchedule)
    (stop_id route_filter : String) (current_time : Int)
    (tu : TripUpdate) (stu : StopTimeUpdate) : Option Departure :=
  if stu.stop_id ≠ stop_id then none
  else
    let headsign := resolveHeadsign static_schedule tu
    if !passesRouteFilter route_filter tu.route_id then none
    else
      match selectedTime stu with
      | none => none
      | some dep_time =>
        if dep_time < current_time then none
        else
          some { headsign := headsign
                 dep_time := dep_time
                 minutes_until := (dep_time - current_time).tdiv 60
                 route_id := tu.route_id
                 trip_id := tu.trip_id }

/-- The `all_departures` list before sorting: the doubly nested loop
over trip updates and their stop-time updates, in feed order. -/
def allDepartures (static_schedule : Option StaticSchedule)
    (stop_id route_filter : String) (current_time : Int)
    (feed : List TripUpdate) : List Departure :=
  feed.flatMap (fun tu =>
    tu.stop_time_update.filterMap
      (processStopTime static_schedule stop_id route_filter current_time tu))

/-- The comparison key of `all_departures.sort(key=...)`. -/
def minutesLE (a b : Departure) : Bool :=
  a.minutes_until ≤ b.minutes_until

/-- The resolver output: `all_departures` sorted stably ascending by
`minutes_until` (Python `list.sort` is stable; `List.mergeSort` is the
stable sort of the Lean library). -/
def resolveDepartures (static_schedule : Option StaticSchedule)
    (stop_id route_filter : String) (current_time : Int)
    (feed : List TripUpdate) : List Departure :=
  (allDepartures static_schedule stop_id route_filter current_time feed).mergeSort minutesLE

/-! ## Direction classifier (`_async_update_data`, bucketing phase) -/

/-- Match test of coordinator line 215: the headsign contains some
filter substring, case-insensitively. -/
def matchesDirection (filters : List String) (headsign : String) : Bool :=
  filters.any (fun f => strContains (pyLower headsign) (pyLower f))

/-- The scan of coordinator lines 213-226: walk the sorted list,
append each match, and break as soon as the bucket has reached
`limit` entries (the length test runs after the append). -/
def collectFiltered (filters : List String) (limit : Nat) :
    List Departure → List Departure
  | [] => []
  | d :: ds =>
    if matchesDirection filters d.headsign then
      if limit ≤ 1 then [d]
      else d :: collectFiltered filters (limit - 1) ds
    else collectFiltered filters limit ds

/-- The bucket built for one direction filter (coordinator lines
193-233): the sentinel name takes a prefix of the sorted list, any
other name scans it with the parsed substring filters. -/
def directionBucket (departure_limit : Nat) (all_departures : List Departure)
    (direction_filter : String) : List Departure :=
  if direction_filter = "All Trains" then all_departures.take departure_limit
  else collectFiltered (parseFilters direction_filter) departure_limit all_departures

/-- The full `result` mapping, one bucket per configured direction
filter, in configuration order. -/
def classifyDirections (direction_filters : List String) (departure_limit : Nat)
    (all_departures : List Departure) : List (String × List Departure) :=
  direction_filters.map (fun n => (n, directionBucket departure_limit all_departures n))

/-- The pure core of one `_async_update_data` poll: resolve then
classify. -/
def updateData (static_schedule : Option StaticSchedule)
    (stop_id route_filter : String) (direction_filters : List String)
    (departure_limit : Nat) (current_time : Int)
    (feed : List TripUpdate) : List (String × List Departure) :=
  classifyDirections direction_filters departure_limit
    (resolveDepartures static_schedule stop_id route_filter current_time feed)

/-! ## Static schedule archive parsing (`static_schedule.py`)

The csv readers yield rows one at a time and mutate `self` as they go;
a malformed row raises mid-iteration.  A table file is therefore
modelled as the rows successfully yielded plus a flag saying the
reader raised afterwards.  An absent `Option` models a file missing
from the archive (`if 'trips.txt' in zip_file.namelist()`). -/

/-- One row of `trips.txt` as read by `row.get(..., '')`. -/
structure TripRow where
  trip_id : String
  trip_headsign : String
deriving Repr, DecidableEq

/-- One row of `routes.txt` as read by `row.get(..., '')`. -/
structure RouteRow where
  route_id : String
  route_long_name : String
  route_short_name : String
deriving Repr, DecidableEq

/-- One row of `stops.txt` as read by `row.get(..., '')`. -/
structure StopRow where
  stop_id : String
  stop_name : String
deriving Repr, DecidableEq

/-- A downloaded archive: for each expected table, `none` when the
file is absent, otherwise the yielded rows and whether the reader
raised after yielding them. -/
structure Archive where
  trips : Option (List TripRow × Bool)
  routes : Option (List RouteRow × Bool)
  stops : Option (List StopRow × Bool)
deriving Repr, DecidableEq

/-- Python dict assignment `m[k] = v`: overwrite in place, else append
(insertion order preserved). -/
def insertKV (m : List (String × String)) (k v : String) : List (String × String) :=
  match m with
  | [] => [(k, v)]
  | (k0, v0) :: rest =>
    if k0 = k then (k, v) :: rest else (k0, v0) :: insertKV rest k v

/-- Body of the `_parse_trips` row loop. -/
def applyTripRow (m : List (String × String)) (r : TripRow) : List (String × String) :=
  let tid := pyTrim r.trip_id
  let hs := pyTrim r.trip_headsign
  if tid ≠ "" ∧ hs ≠ "" then insertKV m tid hs else m

/-- Body of the `_parse_routes` row loop (`long or short`, key kept
even when both names are blank). -/
def applyRouteRow (m : List (String × String)) (r : RouteRow) : List (String × String) :=
  let rid := pyTrim r.route_id
  let long := pyTrim r.route_long_name
  let short := pyTrim r.route_short_name
  if rid ≠ "" then insertKV m rid (if long = "" then short else long) else m

/-- Body of the `_parse_stops` row loop. -/
def applyStopRow (m : List (String × String)) (r : StopRow) : List (String × String) :=
  let sid := pyTrim r.stop_id
  let name := pyTrim r.stop_name
  if sid ≠ "" ∧ name ≠ "" then insertKV m sid name else m

/-- The `trips.txt` stage of `_download_and_parse`: skip an absent
file, otherwise fold the yielded rows into `self.trip_headsigns` and
report whether the reader raised. -/
def parseTripsStage (s : StaticSchedule) (f : Option (List TripRow × Bool)) :
    StaticSchedule × Bool :=
  match f with
  | none => (s, false)
  | some (rows, bad) =>
    ({ s with trip_headsigns := rows.foldl applyTripRow s.trip_headsigns }, bad)

/-- The `routes.txt` stage of `_download_and_parse`. -/
def parseRoutesStage (s : StaticSchedule) (f : Option (List RouteRow × Bool)) :
    StaticSchedule × Bool :=
  match f with
  | none => (s, false)
  | some (rows, bad) =>
    ({ s with route_names := rows.foldl applyRouteRow s.route_names }, bad)

/-- The `stops.txt` stage of `_download_and_parse`. -/
def parseStopsStage (s : StaticSchedule) (f : Option (List StopRow × Bool)) :
    StaticSchedule × Bool :=
  match f with
  | none => (s, false)
  | some (rows, bad) =>
    ({ s with stop_names := rows.foldl applyStopRow s.stop_names }, bad)

/-- `_download_and_parse` after a successful download: run the three
stages in order on the mutable `self`; a raise aborts the remaining
stages but keeps the mutations already made.  The boolean is the
raised-exception flag. -/
def downloadAndParse (s : StaticSchedule) (a : Archive) : StaticSchedule × Bool :=
  let step1 := parseTripsStage s a.trips
  if step1.2 then (step1.1, true)
  else
    let step2 := parseRoutesStage step1.1 a.routes
    if step2.2 then (step2.1, true)
    else parseStopsStage step2.1 a.stops

/-! ## Shared static-schedule cache (`get_shared_static_schedule`) -/

/-- The two module-level globals of `coordinator.py`. -/
structure CacheState where
  sched : Option StaticSchedule
  lastUpdate : Option Int
deriving Repr, DecidableEq

/-- `STATIC_SCHEDULE_UPDATE_INTERVAL` from `const.py` (24 h). -/
def STATIC_SCHEDULE_UPDATE_INTERVAL : Int := 86400

/-- The staleness test of coordinator lines 41-43. -/
def isStale (st : CacheState) (now : Int) : Bool :=
  st.sched.isNone || st.lastUpdate.isNone ||
    (match st.lastUpdate with
     | some t => decide (now - t > STATIC_SCHEDULE_UPDATE_INTERVAL)
     | none => true)

/-- The failures a load can hit: the download itself, or the parse. -/
inductive LoadError where
  | fetchError
  | parseError
deriving Repr, DecidableEq

/-- One call of `get_shared_static_schedule`, with the outcome of the
network download passed as data (`none` models the fetch raising
before any mutation).  The `Except` channel records what the call
propagates to its caller; the body wraps the whole load in
`try/except Exception`, so every path returns `.ok` with the current
value of the shared global. -/
def getSharedStaticSchedule (st : CacheState) (now : Int) (fetched : Option Archive) :
    CacheState × Except LoadError (Option StaticSchedule) :=
  if isStale st now then
    let sched0 := st.sched.getD emptyStaticSchedule
    match fetched with
    | none =>
      ({ sched := some sched0, lastUpdate := st.lastUpdate }, Except.ok (some sched0))
    | some a =>
      let loaded := downloadAndParse sched0 a
      if loaded.2 then
        ({ sched := some loaded.1, lastUpdate := st.lastUpdate }, Except.ok (some loaded.1))
      else
        ({ sched := some loaded.1, lastUpdate := some now }, Except.ok (some loaded.1))
  else (st, Except.ok st.sched)

/-! ## Interleaving model for concurrent cache refreshes

Two coordinators may run `get_shared_static_schedule` concurrently.
Each call has exactly one suspension point, the awaited
`async_load_schedule`, splitting it into two atomic segments: the
staleness check plus creation of the shared instance (everything up to
the await), and the load itself plus the timestamp update (everything
after).  The global state tracks whether the shared instance exists,
the last-update timestamp, and how many archive fetches have run. -/

/-- Shared globals as seen by the interleaving model, plus a fetch
counter for stating single-flight. -/
structure GlobalState where
  schedExists : Bool
  lastUpdate : Option Int
  fetchCount : Nat
deriving Repr, DecidableEq

/-- Progress of one call through its two atomic segments. -/
inductive TaskPhase where
  | ready
  | loading
  | finished
deriving Repr, DecidableEq

/-- One in-flight call: its phase and the `now` it sampled on entry. -/
structure TaskState where
  phase : TaskPhase
  now : Int
deriving Repr, DecidableEq

/-- One atomic step of one call.  From `ready`: evaluate the staleness
condition and, when stale, create the shared instance and start the
load.  From `loading`: the awaited load completes — the fetch runs and
the timestamp is written. -/
def stepTask (g : GlobalState) (t : TaskState) : GlobalState × TaskState :=
  match t.phase with
  | TaskPhase.ready =>
    if !g.schedExists || g.lastUpdate.isNone ||
        (match g.lastUpdate with
         | some u => decide (t.now - u > STATIC_SCHEDULE_UPDATE_INTERVAL)
         | none => true) then
      ({ g with schedExists := true }, { t with phase := TaskPhase.loading })
    else (g, { t with phase := TaskPhase.finished })
  | TaskPhase.loading =>
    ({ schedExists := g.schedExists, lastUpdate := some t.now,
       fetchCount := g.fetchCount + 1 },
     { t with phase := TaskPhase.finished })
  | TaskPhase.finished => (g, t)

/-- Run a schedule over two concurrent calls; `false` steps the first
call, `true` the second. -/
def runSched : List Bool → GlobalState → TaskState → TaskState →
    GlobalState × TaskState × TaskState
  | [], g, t0, t1 => (g, t0, t1)
  | b :: rest, g, t0, t1 =>
    if b then
      let s := stepTask g t1
      runSched rest s.1 t0 s.2
    else
      let s := stepTask g t0
      runSched rest s.1 s.2 t1

/-- The uninitialized globals: no shared instance, no timestamp. -/
def initGlobals : GlobalState :=
  { schedExists := false, lastUpdate := none, fetchCount := 0 }

/-! ## Helper lemmas -/

/-- Characterization of a successful `processStopTime`: every field of
the emitted departure, and every guard it passed. -/
theorem processStopTime_eq_some
    {sched : Option StaticSchedule} {sid rf : String} {now : Int}
    {tu : TripUpdate} {stu : StopTimeUpdate} {d : Departure}
    (h : processStopTime sched sid rf now tu stu = some d) :
    stu.stop_id = sid ∧ passesRouteFilter rf tu.route_id = true ∧
    selectedTime stu = some d.dep_time ∧ ¬ d.dep_time < now ∧
    d.headsign = resolveHeadsign sched tu ∧
    d.minutes_until = (d.dep_time - now).tdiv 60 ∧
    d.route_id = tu.route_id ∧ d.trip_id = tu.trip_id := by
  simp only [processStopTime] at h
  split at h
  · simp at h
  next hstop =>
    split at h
    · simp at h
    next hpass =>
      cases hsel : selectedTime stu with
      | none => rw [hsel] at h; simp at h
      | some t =>
        simp only [hsel] at h
        split at h
        · simp at h
        next htime =>
          obtain rfl := (Option.some.injEq _ _).mp h |>.symm
          refine ⟨by simpa using hstop, by simpa using hpass, by simp [hsel],
            by simpa using htime, rfl, rfl, rfl, rfl⟩

/-- Every member of the pre-sort candidate list comes from a
successful `processStopTime` on some feed record. -/
theorem mem_allDepartures
    {sched : Option StaticSchedule} {sid rf : String} {now : Int}
    {feed : List TripUpdate} {d : Departure}
    (h : d ∈ allDepartures sched sid rf now feed) :
    ∃ tu ∈ feed, ∃ stu ∈ tu.stop_time_update,
      processStopTime sched sid rf now tu stu = some d := by
  simp only [allDepartures, List.mem_flatMap, List.mem_filterMap] at h
  obtain ⟨tu, htu, stu, hstu, hp⟩ := h
  exact ⟨tu, htu, stu, hstu, hp⟩

/-! ## C1 -/

/-- The headsign priority chain as the spec words it: trip-table value
if non-empty, else the inline feed headsign if present and non-empty,
else the route-table name if non-empty, else `"Route " + route_id`.
Stated independently of `resolveHeadsign` to compare the two. -/
def headsignSpec (s : StaticSchedule) (inline : Option String)
    (trip_id route_id : String) : String :=
  if s.get_trip_headsign trip_id = "" then
    if inline.getD "" = "" then
      if s.get_route_name route_id = "" then "Route " ++ route_id
      else s.get_route_name route_id
    else inline.getD ""
  else s.get_trip_headsign trip_id

/-- The coordinator's headsign computation follows the spec's chain. -/
theorem resolveHeadsign_eq_headsignSpec (s : StaticSchedule) (tu : TripUpdate) :
    resolveHeadsign (some s) tu
      = headsignSpec s tu.trip_headsign tu.trip_id tu.route_id := by
  unfold resolveHeadsign headsignSpec
  by_cases h1 : s.get_trip_headsign tu.trip_id = ""
  · cases hin : tu.trip_headsign with
    | none => by_cases h3 : s.get_route_name tu.route_id = "" <;> simp [h1, h3]
    | some hs =>
      by_cases h2 : hs = ""
      · by_cases h3 : s.get_route_name tu.route_id = "" <;> simp [h1, h2, h3]
      · simp [h1, h2]
  · simp [h1]

/-- C1: for every stop-time update matching the station's stop id, the
resolved headsign is, in priority order, (i) the reference store's
trip-id lookup if non-empty, (ii) else the inline feed headsign if
present and non-empty, (iii) else the store's route-id lookup if
non-empty, (iv) else the literal `"Route " + route_id`. -/
theorem C1_headsign_priority
    (s : StaticSchedule) (stop_id route_filter : String) (current_time : Int)
    (tu : TripUpdate) (stu : StopTimeUpdate) (d : Departure)
    (hd : processStopTime (some s) stop_id route_filter current_time tu stu
      = some d) :
    d.headsign = headsignSpec s tu.trip_headsign tu.trip_id tu.route_id := by
  have hf := processStopTime_eq_some hd
  rw [hf.2.2.2.2.1, resolveHeadsign_eq_headsignSpec]

/-- A reference store carrying a trip-table entry, a conflicting
route-table entry, and a feed record carrying a conflicting inline
headsign: branch (i) must win. -/
def c1Store : StaticSchedule :=
  { trip_headsigns := [("t7", "Penn Station")]
    route_names := [("r9", "Babylon Branch")]
    stop_names := [] }

/-- Feed record for the C1 witness. -/
def c1Trip : TripUpdate :=
  { trip_id := "t7", route_id := "r9", trip_headsign := some "Inline Sign"
    stop_time_update := [{ stop_id := "211", arrival := none, departure := some 2000 }] }

/-- Witness for C1 at a concrete input where all four sources disagree. -/
theorem C1_headsign_priority_witness :
    processStopTime (some c1Store) "211" "" 1000 c1Trip
        { stop_id := "211", arrival := none, departure := some 2000 }
      = some { headsign := "Penn Station", dep_time := 2000, minutes_until := 16,
               route_id := "r9", trip_id := "t7" } ∧
    ({ headsign := "Penn Station", dep_time := 2000, minutes_until := 16,
       route_id := "r9", trip_id := "t7" } : Departure).headsign
      = headsignSpec c1Store c1Trip.trip_headsign c1Trip.trip_id c1Trip.route_id :=
  ⟨by decide, C1_headsign_priority c1Store "211" "" 1000 c1Trip
      { stop_id := "211", arrival := none, departure := some 2000 }
      { headsign := "Penn Station", dep_time := 2000, minutes_until := 16,
        route_id := "r9", trip_id := "t7" } (by decide)⟩

/-! ## C2 -/

/-- Feed with a single stop-time update whose departure time equals
the current wall-clock time exactly. -/
def c2Trip : TripUpdate :=
  { trip_id := "t1", route_id := "r1", trip_headsign := none
    stop_time_update := [{ stop_id := "211", arrival := none, departure := some 1000 }] }

/-- C2 counterexample: the source keeps a departure whose selected
time equals the current time (`if dep_time < current_time` is a strict
comparison), so with `current_time = 1000` the update at `1000` is
present in the resolved list — the claim says a departure at exactly
the current time is excluded. -/
theorem C2_counterexample :
    ({ headsign := "Route r1", dep_time := 1000, minutes_until := 0,
       route_id := "r1", trip_id := "t1" } : Departure)
      ∈ resolveDepartures none "211" "" 1000 [c2Trip] := by
  have h : allDepartures none "211" "" 1000 [c2Trip]
      = [{ headsign := "Route r1", dep_time := 1000, minutes_until := 0,
           route_id := "r1", trip_id := "t1" }] := by decide
  unfold resolveDepartures
  rw [h, List.mergeSort_singleton]
  exact List.mem_singleton.mpr rfl

/-- C2 (amended): a stop-time update is excluded only when its
selected time is strictly before the current time; every departure in
the resolved list has selected time ≥ the current time, and one at
exactly the current time is kept (see the counterexample). -/
theorem C2_no_past_departures
    (sched : Option StaticSchedule) (stop_id route_filter : String)
    (current_time : Int) (feed : List TripUpdate) (d : Departure)
    (hd : d ∈ resolveDepartures sched stop_id route_filter current_time feed) :
    current_time ≤ d.dep_time := by
  rw [resolveDepartures, List.mem_mergeSort] at hd
  obtain ⟨tu, _, stu, _, hp⟩ := mem_allDepartures hd
  exact le_of_not_lt (processStopTime_eq_some hp).2.2.2.1

/-- Feed record for the C2 witness: a strictly future departure. -/
def c2wTrip : TripUpdate :=
  { trip_id := "t2", route_id := "r1", trip_headsign := none
    stop_time_update := [{ stop_id := "211", arrival := some 1090, departure := none }] }

/-- The departure emitted for `c2wTrip`. -/
def c2wDep : Departure :=
  { headsign := "Route r1", dep_time := 1090, minutes_until := 1,
    route_id := "r1", trip_id := "t2" }

unseal List.merge List.mergeSort in
/-- Witness for the amended C2 at a concrete input. -/
theorem C2_no_past_departures_witness :
    c2wDep ∈ resolveDepartures none "211" "" 1000 [c2wTrip] ∧
    (1000 : Int) ≤ c2wDep.dep_time :=
  ⟨by decide, C2_no_past_departures none "211" "" 1000 [c2wTrip] c2wDep (by decide)⟩

/-! ## C3 -/

/-- C3: whenever the configured direction-filter list contains the
sentinel `"All Trains"`, the bucket produced under that name exists
and equals exactly the first `departure_limit` entries of the
time-sorted resolved departure list, verbatim, whatever the other
filters are. -/
theorem C3_all_trains_bucket
    (sched : Option StaticSchedule) (stop_id route_filter : String)
    (direction_filters : List String) (departure_limit : Nat)
    (current_time : Int) (feed : List TripUpdate)
    (hin : "All Trains" ∈ direction_filters) :
    ("All Trains",
        (resolveDepartures sched stop_id route_filter current_time feed).take
          departure_limit)
      ∈ updateData sched stop_id route_filter direction_filters departure_limit
          current_time feed ∧
    ∀ b, ("All Trains", b)
        ∈ updateData sched stop_id route_filter direction_filters departure_limit
            current_time feed →
      b = (resolveDepartures sched stop_id route_filter current_time feed).take
            departure_limit := by
  constructor
  · simp only [updateData, classifyDirections, List.mem_map]
    exact ⟨"All Trains", hin, by simp [directionBucket]⟩
  · intro b hb
    simp only [updateData, classifyDirections, List.mem_map] at hb
    obtain ⟨n, _, hn⟩ := hb
    obtain ⟨rfl, rfl⟩ : n = "All Trains" ∧ directionBucket departure_limit
        (resolveDepartures sched stop_id route_filter current_time feed) n = b := by
      exact ⟨congrArg Prod.fst hn, congrArg Prod.snd hn⟩
    simp [directionBucket]

/-- Feed for the C3/C4 witnesses: two departures at the station. -/
def c3Trip : TripUpdate :=
  { trip_id := "t1", route_id := "r1", trip_headsign := some "Penn Station"
    stop_time_update :=
      [{ stop_id := "211", arrival := none, departure := some 1300 },
       { stop_id := "211", arrival := none, departure := some 1060 }] }

unseal List.merge List.mergeSort in
/-- Witness for C3: with filters `["All Trains", "penn"]` and limit 1,
the sentinel bucket is present and is the first entry of the sorted
list. -/
theorem C3_all_trains_bucket_witness :
    ("All Trains", (resolveDepartures none "211" "" 1000 [c3Trip]).take 1)
      ∈ updateData none "211" "" ["All Trains", "penn"] 1 1000 [c3Trip] :=
  (C3_all_trains_bucket none "211" "" ["All Trains", "penn"] 1 1000 [c3Trip]
    (by decide)).1

/-! ## C4 -/

/-- The break-at-limit scan over the sorted list equals filtering then
truncating, for any positive limit. -/
theorem collectFiltered_eq_take_filter (fs : List String) :
    ∀ (l : List Departure) (limit : Nat), 0 < limit →
      collectFiltered fs limit l
        = (l.filter (fun d => matchesDirection fs d.headsign)).take limit
  | [], limit, _ => by simp [collectFiltered]
  | d :: ds, limit, hpos => by
    simp only [collectFiltered]
    by_cases hm : matchesDirection fs d.headsign
    · by_cases h1 : limit ≤ 1
      · obtain rfl : limit = 1 := Nat.le_antisymm h1 hpos
        simp [hm, List.filter_cons]
      · obtain ⟨m, rfl⟩ : ∃ m, limit = m + 1 := ⟨limit - 1, by omega⟩
        have hstep := collectFiltered_eq_take_filter fs ds m (by omega)
        simp only [hm, if_true, if_neg h1, Nat.add_sub_cancel, hstep,
          List.filter_cons, List.take_succ_cons]
    · have hstep := collectFiltered_eq_take_filter fs ds limit hpos
      simp [hm, hstep, List.filter_cons]

/-- C4: a non-sentinel bucket is the time-ordered prefix of the
matching departures — split the name on the pipe character, trim,
drop empties, keep departures whose headsign contains some substring
case-insensitively, truncate at the limit — and no bucket, sentinel
included, is longer than the limit. -/
theorem C4_direction_bucket
    (direction_filter : String) (departure_limit : Nat)
    (all_departures : List Departure)
    (hname : direction_filter ≠ "All Trains") (hpos : 0 < departure_limit) :
    directionBucket departure_limit all_departures direction_filter
      = (all_departures.filter (fun d =>
          matchesDirection (parseFilters direction_filter) d.headsign)).take
            departure_limit ∧
    (directionBucket departure_limit all_departures direction_filter).length
      ≤ departure_limit ∧
    (directionBucket departure_limit all_departures "All Trains").length
      ≤ departure_limit := by
  have hb : directionBucket departure_limit all_departures direction_filter
      = (all_departures.filter (fun d =>
          matchesDirection (parseFilters direction_filter) d.headsign)).take
            departure_limit := by
    rw [directionBucket, if_neg hname]
    exact collectFiltered_eq_take_filter _ _ _ hpos
  refine ⟨hb, ?_, ?_⟩
  · rw [hb]; exact List.length_take_le _ _
  · simp only [directionBucket, if_pos]
    exact List.length_take_le _ _

/-- Departures for the C4 witness: two match `"penn"`
case-insensitively, one does not; the limit cuts after one match. -/
def c4Deps : List Departure :=
  [{ headsign := "Penn Station", dep_time := 1060, minutes_until := 1,
     route_id := "r1", trip_id := "t1" },
   { headsign := "Babylon", dep_time := 1120, minutes_until := 2,
     route_id := "r2", trip_id := "t2" },
   { headsign := "PENN STATION", dep_time := 1180, minutes_until := 3,
     route_id := "r1", trip_id := "t3" }]

/-- Witness for C4: filter `"penn"` with limit 1 takes only the first
case-insensitive match. -/
theorem C4_direction_bucket_witness :
    ("penn" ≠ "All Trains") ∧ 0 < 1 ∧
    directionBucket 1 c4Deps "penn"
      = (c4Deps.filter (fun d =>
          matchesDirection (parseFilters "penn") d.headsign)).take 1 ∧
    (directionBucket 1 c4Deps "penn").length ≤ 1 ∧
    (directionBucket 1 c4Deps "All Trains").length ≤ 1 :=
  ⟨by decide, by decide,
    C4_direction_bucket "penn" 1 c4Deps (by decide) (by decide)⟩

/-! ## C5 -/

/-- C5: with a non-empty route filter a stop-time update passes the
route stage exactly when the route id contains one of the parsed
pipe-separated substrings (case-sensitive); the empty filter passes
everything.  A record failing the stage is dropped; one passing it
with a usable, non-past time is emitted. -/
theorem C5_route_filter_containment (route_filter : String) (tu : TripUpdate) :
    (passesRouteFilter route_filter tu.route_id = true
      ↔ (route_filter = "" ∨
          ∃ f ∈ parseFilters route_filter, strContains tu.route_id f = true)) ∧
    (∀ (sched : Option StaticSchedule) (stop_id : String) (current_time : Int)
        (stu : StopTimeUpdate),
      stu.stop_id = stop_id →
      passesRouteFilter route_filter tu.route_id = false →
      processStopTime sched stop_id route_filter current_time tu stu = none) ∧
    (∀ (sched : Option StaticSchedule) (stop_id : String) (current_time : Int)
        (stu : StopTimeUpdate) (t : Int),
      stu.stop_id = stop_id →
      passesRouteFilter route_filter tu.route_id = true →
      selectedTime stu = some t → ¬ t < current_time →
      processStopTime sched stop_id route_filter current_time tu stu
        = some { headsign := resolveHeadsign sched tu, dep_time := t,
                 minutes_until := (t - current_time).tdiv 60,
                 route_id := tu.route_id, trip_id := tu.trip_id }) := by
  refine ⟨?_, ?_, ?_⟩
  · by_cases he : route_filter = ""
    · simp [passesRouteFilter, he]
    · simp [passesRouteFilter, he, List.any_eq_true]
  · intro sched stop_id current_time stu hstop hfail
    simp [processStopTime, hstop, hfail]
  · intro sched stop_id current_time stu t hstop hpass hsel htime
    simp [processStopTime, hstop, hpass, hsel, htime]

/-- Trip for the C5 witness: route id `"XAY"` contains `"A"`. -/
def c5Trip : TripUpdate :=
  { trip_id := "t5", route_id := "XAY", trip_headsign := some "Montauk"
    stop_time_update := [{ stop_id := "211", arrival := none, departure := some 1060 }] }

/-- Witness for C5: filter `"A|B"` keeps route id `"XAY"` and the
record is emitted. -/
theorem C5_route_filter_containment_witness :
    ({ stop_id := "211", arrival := none, departure := some 1060 }
        : StopTimeUpdate).stop_id = "211" ∧
    passesRouteFilter "A|B" c5Trip.route_id = true ∧
    selectedTime { stop_id := "211", arrival := none, departure := some 1060 }
      = some 1060 ∧
    ¬ (1060 : Int) < 1000 ∧
    processStopTime none "211" "A|B" 1000 c5Trip
        { stop_id := "211", arrival := none, departure := some 1060 }
      = some { headsign := resolveHeadsign none c5Trip, dep_time := 1060,
               minutes_until := (1060 - 1000 : Int).tdiv 60,
               route_id := c5Trip.route_id, trip_id := c5Trip.trip_id } :=
  ⟨by decide, by decide, by decide, by decide,
    (C5_route_filter_containment "A|B" c5Trip).2.2 none "211" 1000
      { stop_id := "211", arrival := none, departure := some 1060 } 1060
      (by decide) (by decide) (by decide) (by decide)⟩

/-! ## C6 -/

/-- Order on departures used to state sortedness. -/
theorem minutesLE_trans : ∀ a b c : Departure,
    minutesLE a b = true → minutesLE b c = true → minutesLE a c = true := by
  intro a b c
  simp only [minutesLE, decide_eq_true_eq]
  omega

/-- Totality of the sort key comparison. -/
theorem minutesLE_total : ∀ a b : Departure,
    (minutesLE a b || minutesLE b a) = true := by
  intro a b
  simp only [minutesLE, Bool.or_eq_true, decide_eq_true_eq]
  omega

/-- C6: every resolved departure has non-negative minutes-until, the
resolver output is sorted ascending by minutes-until, and the sort is
stable: for every key value, the sub-sequence of departures with that
key is exactly their feed-encounter sub-sequence. -/
theorem C6_sorted_nonneg_stable
    (sched : Option StaticSchedule) (stop_id route_filter : String)
    (current_time : Int) (feed : List TripUpdate) :
    (∀ d ∈ resolveDepartures sched stop_id route_filter current_time feed,
        0 ≤ d.minutes_until) ∧
    (resolveDepartures sched stop_id route_filter current_time feed).Pairwise
      (fun a b => a.minutes_until ≤ b.minutes_until) ∧
    (∀ k : Int,
      (resolveDepartures sched stop_id route_filter current_time feed).filter
          (fun d => decide (d.minutes_until = k))
        = (allDepartures sched stop_id route_filter current_time feed).filter
            (fun d => decide (d.minutes_until = k))) := by
  refine ⟨?_, ?_, ?_⟩
  · intro d hd
    rw [resolveDepartures, List.mem_mergeSort] at hd
    obtain ⟨tu, _, stu, _, hp⟩ := mem_allDepartures hd
    obtain ⟨-, -, -, htime, -, hmin, -, -⟩ := processStopTime_eq_some hp
    rw [hmin]
    exact Int.tdiv_nonneg (by omega) (by norm_num)
  · refine (List.sorted_mergeSort minutesLE_trans minutesLE_total _).imp ?_
    intro a b h
    simpa [minutesLE] using h
  · intro k
    set p : Departure → Bool := fun d => decide (d.minutes_until = k) with hp
    set cands := allDepartures sched stop_id route_filter current_time feed with hc
    have hpair : (cands.filter p).Pairwise (fun a b => minutesLE a b = true) := by
      refine List.pairwise_of_forall_mem_list ?_
      intro a ha b hb
      have ha2 : a.minutes_until = k := by
        simpa [hp] using List.of_mem_filter ha
      have hb2 : b.minutes_until = k := by
        simpa [hp] using List.of_mem_filter hb
      simp [minutesLE, ha2, hb2]
    have h1 : (cands.filter p).Sublist (cands.mergeSort minutesLE) :=
      List.sublist_mergeSort minutesLE_trans minutesLE_total hpair
        (List.filter_sublist cands)
    have h2 : ((cands.filter p).filter p).Sublist
        ((cands.mergeSort minutesLE).filter p) :=
      h1.filter p
    have h3 : (cands.filter p).filter p = cands.filter p := by
      rw [List.filter_filter]
      exact List.filter_congr (fun x _ => Bool.and_self (p x))
    rw [h3] at h2
    have h4 : ((cands.mergeSort minutesLE).filter p).length
        = (cands.filter p).length :=
      ((List.mergeSort_perm cands minutesLE).filter p).length_eq
    exact (h2.eq_of_length h4.symm).symm

unseal List.merge List.mergeSort in
/-- Witness for C6: sortedness of a concrete resolved list. -/
theorem C6_sorted_nonneg_stable_witness :
    (resolveDepartures none "211" "" 1000 [c3Trip]).Pairwise
      (fun a b => a.minutes_until ≤ b.minutes_until) :=
  (C6_sorted_nonneg_stable none "211" "" 1000 [c3Trip]).2.1

/-! ## C7 -/

/-- C7 counterexample: with the cache uninitialized (no store has ever
loaded) and the very first download failing, the call returns normally
with the empty never-loaded store — the `try/except` swallows the
error instead of propagating it. -/
theorem C7_counterexample :
    (getSharedStaticSchedule { sched := none, lastUpdate := none } 0 none).2
      = Except.ok (some emptyStaticSchedule) := rfl

/-- C7 (amended): a failed very first load is caught and logged, not
propagated: on a fetch failure the caller receives the empty store and
the last-update timestamp stays unset (so the next call retries); on a
parse failure the caller receives the partially mutated store, again
with the timestamp unset. -/
theorem C7_first_load_failure_swallowed :
    (∀ now : Int,
      getSharedStaticSchedule { sched := none, lastUpdate := none } now none
        = ({ sched := some emptyStaticSchedule, lastUpdate := none },
           Except.ok (some emptyStaticSchedule))) ∧
    (∀ (now : Int) (a : Archive),
      (downloadAndParse emptyStaticSchedule a).2 = true →
      getSharedStaticSchedule { sched := none, lastUpdate := none } now (some a)
        = ({ sched := some (downloadAndParse emptyStaticSchedule a).1,
             lastUpdate := none },
           Except.ok (some (downloadAndParse emptyStaticSchedule a).1))) := by
  constructor
  · intro now
    rfl
  · intro now a h
    simp [getSharedStaticSchedule, isStale, h]

/-- Archive whose only table raises after yielding one row. -/
def c7Archive : Archive :=
  { trips := some ([{ trip_id := "t1", trip_headsign := "Penn" }], true)
    routes := none, stops := none }

/-- Witness for the amended C7: a concrete failing first parse. -/
theorem C7_first_load_failure_swallowed_witness :
    (downloadAndParse emptyStaticSchedule c7Archive).2 = true ∧
    getSharedStaticSchedule { sched := none, lastUpdate := none } 5 (some c7Archive)
      = ({ sched := some (downloadAndParse emptyStaticSchedule c7Archive).1,
           lastUpdate := none },
         Except.ok (some (downloadAndParse emptyStaticSchedule c7Archive).1)) :=
  ⟨by decide, C7_first_load_failure_swallowed.2 5 c7Archive (by decide)⟩

/-! ## C8 -/

/-- Store holding a prior entry, to observe what a failed load does. -/
def c8Store : StaticSchedule :=
  { trip_headsigns := [("old", "Old Entry")], route_names := [], stop_names := [] }

/-- Archive whose trips table yields one good row and then raises. -/
def c8Archive : Archive :=
  { trips := some ([{ trip_id := "t1", trip_headsign := "Penn" }], true)
    routes := none, stops := none }

/-- C8 counterexample: the load fails, yet the store is not left as it
was — the row parsed before the error is already merged in, so the
mapping set is partially updated. -/
theorem C8_counterexample :
    (downloadAndParse c8Store c8Archive).2 = true ∧
    (downloadAndParse c8Store c8Archive).1 ≠ c8Store := by decide

/-- Is a key bound in a mapping? -/
def boundKey (m : List (String × String)) (k : String) : Bool :=
  m.any (fun p => p.1 = k)

/-- Dict insertion never unbinds an existing key. -/
theorem boundKey_insertKV (m : List (String × String)) (k v k0 : String)
    (h : boundKey m k0 = true) : boundKey (insertKV m k v) k0 = true := by
  induction m with
  | nil => simp [boundKey] at h
  | cons p rest ih =>
    rcases p with ⟨k1, v1⟩
    simp only [insertKV]
    by_cases hk : k1 = k
    · rw [if_pos hk]
      simp only [boundKey, List.any_cons, Bool.or_eq_true,
        decide_eq_true_eq] at h ⊢
      rcases h with h | h
      · left; rw [← hk]; exact h
      · right; exact h
    · rw [if_neg hk]
      simp only [boundKey, List.any_cons, Bool.or_eq_true] at h ⊢
      rcases h with h | h
      · left; exact h
      · right; exact ih h

/-- Folding a key-preserving row action over any row list preserves
bound keys. -/
theorem boundKey_foldl {ρ : Type}
    (f : List (String × String) → ρ → List (String × String))
    (hf : ∀ m r k0, boundKey m k0 = true → boundKey (f m r) k0 = true) :
    ∀ (rows : List ρ) (m : List (String × String)) (k0 : String),
      boundKey m k0 = true → boundKey (rows.foldl f m) k0 = true
  | [], _, _, h => h
  | r :: rows, m, k0, h => boundKey_foldl f hf rows (f m r) k0 (hf m r k0 h)

/-- The trips row action preserves bound keys. -/
theorem applyTripRow_boundKey : ∀ (m : List (String × String)) (r : TripRow)
    (k0 : String), boundKey m k0 = true → boundKey (applyTripRow m r) k0 = true := by
  intro m r k0 h
  simp only [applyTripRow]
  split
  · exact boundKey_insertKV _ _ _ _ h
  · exact h

/-- The routes row action preserves bound keys. -/
theorem applyRouteRow_boundKey : ∀ (m : List (String × String)) (r : RouteRow)
    (k0 : String), boundKey m k0 = true → boundKey (applyRouteRow m r) k0 = true := by
  intro m r k0 h
  simp only [applyRouteRow]
  split
  · exact boundKey_insertKV _ _ _ _ h
  · exact h

/-- The stops row action preserves bound keys. -/
theorem applyStopRow_boundKey : ∀ (m : List (String × String)) (r : StopRow)
    (k0 : String), boundKey m k0 = true → boundKey (applyStopRow m r) k0 = true := by
  intro m r k0 h
  simp only [applyStopRow]
  split
  · exact boundKey_insertKV _ _ _ _ h
  · exact h

/-- The trips stage: other maps untouched, trips keys preserved. -/
theorem parseTripsStage_maps (s : StaticSchedule)
    (f : Option (List TripRow × Bool)) :
    (parseTripsStage s f).1.route_names = s.route_names ∧
    (parseTripsStage s f).1.stop_names = s.stop_names ∧
    ∀ k, boundKey s.trip_headsigns k = true →
      boundKey (parseTripsStage s f).1.trip_headsigns k = true := by
  cases f with
  | none => exact ⟨rfl, rfl, fun _ h => h⟩
  | some rf =>
    rcases rf with ⟨rows, bad⟩
    exact ⟨rfl, rfl, fun k h =>
      boundKey_foldl applyTripRow applyTripRow_boundKey rows _ k h⟩

/-- The routes stage: other maps untouched, route keys preserved. -/
theorem parseRoutesStage_maps (s : StaticSchedule)
    (f : Option (List RouteRow × Bool)) :
    (parseRoutesStage s f).1.trip_headsigns = s.trip_headsigns ∧
    (parseRoutesStage s f).1.stop_names = s.stop_names ∧
    ∀ k, boundKey s.route_names k = true →
      boundKey (parseRoutesStage s f).1.route_names k = true := by
  cases f with
  | none => exact ⟨rfl, rfl, fun _ h => h⟩
  | some rf =>
    rcases rf with ⟨rows, bad⟩
    exact ⟨rfl, rfl, fun k h =>
      boundKey_foldl applyRouteRow applyRouteRow_boundKey rows _ k h⟩

/-- The stops stage: other maps untouched, stop keys preserved. -/
theorem parseStopsStage_maps (s : StaticSchedule)
    (f : Option (List StopRow × Bool)) :
    (parseStopsStage s f).1.trip_headsigns = s.trip_headsigns ∧
    (parseStopsStage s f).1.route_names = s.route_names ∧
    ∀ k, boundKey s.stop_names k = true →
      boundKey (parseStopsStage s f).1.stop_names k = true := by
  cases f with
  | none => exact ⟨rfl, rfl, fun _ h => h⟩
  | some rf =>
    rcases rf with ⟨rows, bad⟩
    exact ⟨rfl, rfl, fun k h =>
      boundKey_foldl applyStopRow applyStopRow_boundKey rows _ k h⟩

/-- C8 (amended): an archive load mutates the three dicts in place,
merging rows into the prior contents as they are parsed; a failure
leaves the rows parsed so far applied rather than restoring the prior
state, and no load — successful or failed — ever removes a previously
bound key from any of the three mappings. -/
theorem C8_no_key_removed (s : StaticSchedule) (a : Archive) (k : String) :
    (boundKey s.trip_headsigns k = true →
      boundKey (downloadAndParse s a).1.trip_headsigns k = true) ∧
    (boundKey s.route_names k = true →
      boundKey (downloadAndParse s a).1.route_names k = true) ∧
    (boundKey s.stop_names k = true →
      boundKey (downloadAndParse s a).1.stop_names k = true) := by
  have h1 := parseTripsStage_maps s a.trips
  have h2 := parseRoutesStage_maps (parseTripsStage s a.trips).1 a.routes
  have h3 := parseStopsStage_maps
    (parseRoutesStage (parseTripsStage s a.trips).1 a.routes).1 a.stops
  simp only [downloadAndParse]
  split
  · exact ⟨fun h => h1.2.2 k h, fun h => by rw [h1.1]; exact h,
      fun h => by rw [h1.2.1]; exact h⟩
  · split
    · refine ⟨fun h => by rw [h2.1]; exact h1.2.2 k h, fun h => ?_,
        fun h => by rw [h2.2.1, h1.2.1]; exact h⟩
      exact h2.2.2 k (by rw [h1.1]; exact h)
    · refine ⟨fun h => ?_, fun h => ?_, fun h => ?_⟩
      · rw [h3.1, h2.1]
        exact h1.2.2 k h
      · rw [h3.2.1]
        exact h2.2.2 k (by rw [h1.1]; exact h)
      · exact h3.2.2 k (by rw [h2.2.1, h1.2.1]; exact h)

/-- Witness for the amended C8: the prior key survives a failing load. -/
theorem C8_no_key_removed_witness :
    boundKey c8Store.trip_headsigns "old" = true ∧
    boundKey (downloadAndParse c8Store c8Archive).1.trip_headsigns "old" = true :=
  ⟨by decide, (C8_no_key_removed c8Store c8Archive "old").1 (by decide)⟩

/-! ## C9 -/

/-- C9 counterexample: the interleaving in which both poll cycles run
their staleness check before either load completes.  Both observe the
uninitialized cache, both start a load, and two archive fetches
execute — not exactly one — even though both calls run to
completion. -/
theorem C9_counterexample :
    (runSched [false, true, false, true] initGlobals
        { phase := TaskPhase.ready, now := 100 }
        { phase := TaskPhase.ready, now := 100 }).1.fetchCount = 2 ∧
    (runSched [false, true, false, true] initGlobals
        { phase := TaskPhase.ready, now := 100 }
        { phase := TaskPhase.ready, now := 100 }).2.1.phase
      = TaskPhase.finished ∧
    (runSched [false, true, false, true] initGlobals
        { phase := TaskPhase.ready, now := 100 }
        { phase := TaskPhase.ready, now := 100 }).2.2.phase
      = TaskPhase.finished := by decide

/-- C9 (amended): the refresh is not single-flight — there is no guard
around the load, so the fetch count depends on the interleaving: two
serialized calls perform one fetch (the second observes the first's
timestamp), while two calls whose staleness checks both run before
either load completes perform two. -/
theorem C9_not_single_flight :
    (runSched [false, false, true, true] initGlobals
        { phase := TaskPhase.ready, now := 100 }
        { phase := TaskPhase.ready, now := 100 }).1.fetchCount = 1 ∧
    (runSched [false, true, false, true] initGlobals
        { phase := TaskPhase.ready, now := 100 }
        { phase := TaskPhase.ready, now := 100 }).1.fetchCount = 2 := by decide

/-! ## C10 -/

/-- C10: a route filter that is non-empty yet parses to no substrings
(for example `"|"` or whitespace) discards every stop-time update: the
candidate list and the resolved list are both empty. -/
theorem C10_degenerate_route_filter
    (sched : Option StaticSchedule) (stop_id route_filter : String)
    (current_time : Int) (feed : List TripUpdate)
    (h1 : route_filter ≠ "") (h2 : parseFilters route_filter = []) :
    allDepartures sched stop_id route_filter current_time feed = [] ∧
    resolveDepartures sched stop_id route_filter current_time feed = [] := by
  have hpass : ∀ rid, passesRouteFilter route_filter rid = false := by
    intro rid
    simp [passesRouteFilter, h1, h2]
  have hall : allDepartures sched stop_id route_filter current_time feed = [] := by
    rw [allDepartures, List.flatMap_eq_nil_iff]
    intro tu _
    rw [List.filterMap_eq_nil_iff]
    intro stu _
    simp only [processStopTime, hpass tu.route_id]
    split
    · rfl
    · simp
  exact ⟨hall, by rw [resolveDepartures, hall, List.mergeSort_nil]⟩

/-- Witness for C10: the filter `"|"` empties a feed that would
otherwise produce departures. -/
theorem C10_degenerate_route_filter_witness :
    ("|" ≠ "") ∧ parseFilters "|" = [] ∧
    allDepartures none "211" "|" 1000 [c3Trip] = [] ∧
    resolveDepartures none "211" "|" 1000 [c3Trip] = [] :=
  ⟨by decide, by decide,
    C10_degenerate_route_filter none "211" "|" 1000 [c3Trip]
      (by decide) (by decide)⟩

end LIRR
